import Mathlib

/-!
Shallow embedding of the MovieRecommendation backend (anbhav20/MovieRecommendation).

The core pipeline lives in `train_model.py`:
* `recommend_ml`   — Similarity Index tier (pre-trained kNN over vectorized titles),
* `recommend_tmdb` — Fallback Resolver tier (remote catalog search + similar titles),
* `get_movie_full_details` / `get_ott_links` — Detail Enricher branches,
* `get_full_recommendations` — Recommendation Aggregator (fan-out/fan-in).

Remote HTTP interactions are modelled by an environment of response functions;
each outcome is either a raised exception (`Remote.exn`, the Python
`except` path) or an HTTP response with a status code and a parsed JSON body.
Functions additionally return the list of remote calls they issued, so that
claims about which calls are (not) attempted can be stated.
-/

/-- Outcome of one remote HTTP call: a raised exception (network error,
timeout, ...) or a response with status code and parsed body. -/
inductive Remote (α : Type) where
  | exn (msg : String)
  | resp (status : Nat) (body : α)
deriving DecidableEq

/-- One entry of a TMDB `search/movie` or `movie/{id}/similar` response `results` array: the fields the code reads (`id`, `title`, `poster_path`). -/
structure SearchEntry where
  id : Nat
  title : String
  poster_path : Option String
deriving DecidableEq

/-- A cast member of a `credits` response (the code reads only `name`). -/
structure CastMember where
  name : String
deriving DecidableEq

/-- A crew member of a `credits` response (`name`, and `job` read via
`member.get("job")`, hence optional). -/
structure CrewMember where
  name : String
  job : Option String
deriving DecidableEq

/-- Body of a `movie/{id}/credits` response. -/
structure CreditsBody where
  cast : List CastMember
  crew : List CrewMember
deriving DecidableEq

/-- Body of a `movie/{id}` details response; every field is read with
`.get(...)`, hence optional. -/
structure DetailsBody where
  title : Option String
  overview : Option String
  vote_average : Option ℚ
  release_date : Option String
deriving DecidableEq

/-- One streaming provider entry (`p.get("provider_name")`). -/
structure Provider where
  provider_name : Option String
deriving DecidableEq

/-- Providers of one country: the `flatrate` and `free` arrays. -/
structure CountryEntry where
  flatrate : List Provider
  free : List Provider
deriving DecidableEq

/-- Body of a `movie/{id}/watch/providers` response; the code only reads
`results.get("IN", {})`, so only the `IN` entry is modelled (absent key
yields an empty dict, i.e. `none` here). -/
structure ProvidersBody where
  country_IN : Option CountryEntry
deriving DecidableEq

/-- The remote catalog API as a deterministic environment: a response for
each endpoint the code calls, keyed by the query string or movie id. -/
structure TmdbEnv where
  search : String → Remote (List SearchEntry)
  similar : Nat → Remote (List SearchEntry)
  details : Nat → Remote DetailsBody
  credits : Nat → Remote CreditsBody
  providers : Nat → Remote ProvidersBody

/-- State of the Similarity Index tier: whether the model artifacts loaded
(`knn_model`, `vectorizer`, `movies_df` in `train_model.py`), the number of
catalog rows, the `title` column of `movies_df`, and the cosine distance of
each catalog row to the (vectorized) query — `recommendation.py` fits
`NearestNeighbors(metric="cosine")`, so neighbor order is by this distance. -/
structure MlEnv where
  loaded : Bool
  numRows : Nat
  titleAt : Nat → String
  cosineDist : String → Nat → ℚ

/-- A remote call issued by the pipeline, tagged by the issuing site. -/
inductive RemoteCall where
  | tmdbSearch (q : String)
  | tmdbSimilar (id : Nat)
  | detailSearch (t : String)
  | detailFetch (id : Nat)
  | creditsFetch (id : Nat)
  | ottSearch (t : String)
  | providersFetch (id : Nat)
deriving DecidableEq

/-- Result of a resolver tier: the Python functions return either
`{"recommended_movies": [...], "source": ...}` or `{"error": msg}`;
the aggregator branches on `"error" in rec_result`. -/
inductive RecResult where
  | ok (recommended_movies : List String) (source : String)
  | err (msg : String)
deriving DecidableEq

/-- `TMDB_API_KEY = os.environ.get("TMDB_API_KEY", "3075...")` from
`train_model.py` line 23: absence of the environment variable falls back to
a hardcoded default key. -/
def TMDB_API_KEY (envVar : Option String) : String :=
  envVar.getD "3075ab4eebb27e51a67f7869d6b7984a"

/-- `recommend_tmdb` from `train_model.py`: the Fallback Resolver. Lowercase
and strip the query; refuse with a missing-key error if the key string is
falsy (empty); search the catalog; on a non-200 status, an exception, or an
empty `results` array fail; otherwise take the id of the top match, fetch its
similar titles, and truncate to `k`. Returns the result together with the
remote calls issued. -/
def recommend_tmdb (api : TmdbEnv) (key : String) (movie_name : String) (k : Nat) :
    RecResult × List RemoteCall :=
  let q := movie_name.toLower.trim
  if key = "" then (.err "TMDB API key is missing.", [])
  else
    match api.search q with
    | .exn m => (.err ("Error during TMDB fallback: " ++ m), [.tmdbSearch q])
    | .resp st body =>
      if st ≠ 200 then (.err "TMDB API search failed.", [.tmdbSearch q])
      else
        match body with
        | [] => (.err "Movie not found in TMDB.", [.tmdbSearch q])
        | m0 :: _ =>
          match api.similar m0.id with
          | .exn m =>
            (.err ("Error during TMDB fallback: " ++ m), [.tmdbSearch q, .tmdbSimilar m0.id])
          | .resp st2 sims =>
            if st2 ≠ 200 then
              (.err "TMDB API similar movies fetch failed.", [.tmdbSearch q, .tmdbSimilar m0.id])
            else
              match sims with
              | [] =>
                (.err "No similar movies found on TMDB.", [.tmdbSearch q, .tmdbSimilar m0.id])
              | s0 :: rest =>
                (.ok (((s0 :: rest).map (fun s => s.title)).take k) "TMDB fallback",
                 [.tmdbSearch q, .tmdbSimilar m0.id])

/-- Catalog rows sorted by cosine distance to the query, nearest first:
the neighbor order of the fitted `NearestNeighbors(metric="cosine")` index. -/
def neighborOrder (ml : MlEnv) (q : String) : List Nat :=
  List.insertionSort (fun i j => ml.cosineDist q i ≤ ml.cosineDist q j)
    (List.range ml.numRows)

/-- `knn_model.kneighbors(input_vector, n_neighbors=n)`: the `n` nearest
catalog rows by cosine distance, in increasing-distance order; sklearn
raises (here: `none`) when `n` exceeds the number of fitted samples. -/
def kneighbors (ml : MlEnv) (q : String) (n : Nat) : Option (List Nat) :=
  if n ≤ ml.numRows then some ((neighborOrder ml q).take n) else none

/-- `recommend_ml` from `train_model.py`: the Similarity Index tier. Fails if
the model artifacts did not load; retrieves the `k+1` nearest neighbors of
the lowercased, stripped query; drops the first neighbor (assumed to be the
query itself, `indices.squeeze().tolist()[1:]`) and maps the rest to titles.
For `k = 0` the `squeeze()` yields a scalar and the `[1:]` slice raises a
`TypeError`, caught by the `except` clause. -/
def recommend_ml (ml : MlEnv) (movie_name : String) (k : Nat) : RecResult :=
  if ml.loaded = false then .err "Pre-trained ML model or movies mapping is not available."
  else
    let q := movie_name.toLower.trim
    match kneighbors ml q (k + 1) with
    | none => .err "ML recommendation failed: n_neighbors exceeds sample count."
    | some ns =>
      if k = 0 then .err "ML recommendation failed: scalar index is not subscriptable."
      else .ok ((ns.drop 1).map ml.titleAt) "ML model"

/-- Result of `get_movie_full_details`: either the returned detail dict
(title, overview, rating, release_date, joined cast/crew strings,
poster_url) or an `{"error": msg}` dict. -/
inductive DetailsResult where
  | ok (title : Option String) (overview : Option String) (rating : Option ℚ)
       (release_date : Option String) (cast : String) (crew : String)
       (poster_url : Option String)
  | err (msg : String)
deriving DecidableEq

/-- Result of `get_ott_links`: the `{"Free": [...], "Paid": [...]}` dict
(provider names read with `.get`, hence optional) or an `{"error": msg}`
dict. -/
inductive OttResult where
  | ok (free : List (Option String)) (paid : List (Option String))
  | err (msg : String)
deriving DecidableEq

/-- `", ".join(xs)`. -/
def joinComma (xs : List String) : String :=
  String.intercalate ", " xs

/-- `get_movie_full_details` from `train_model.py`: search the catalog for
the title; on failure (exception, non-200 status, empty results) return an
error dict and stop. Otherwise compute the poster URL from the top match
(Python truthiness: an absent or empty `poster_path` yields `None`), fetch
the details (failure aborts with an error dict), then fetch the credits —
a non-200 credits status degrades to empty cast/crew, while a raised
exception aborts the whole call. Cast is the first 3 credited names, crew
the names whose `job` equals `"Director"`, both comma-joined. -/
def get_movie_full_details (api : TmdbEnv) (movie_name : String) :
    DetailsResult × List RemoteCall :=
  match api.search movie_name with
  | .exn m => (.err ("Network error: " ++ m), [.detailSearch movie_name])
  | .resp st body =>
    if st ≠ 200 then (.err "Failed to fetch movie info from TMDB.", [.detailSearch movie_name])
    else
      match body with
      | [] => (.err "Movie not found.", [.detailSearch movie_name])
      | md :: _ =>
        let movie_id := md.id
        let poster_url : Option String :=
          match md.poster_path with
          | some p => if p = "" then none else some ("https://image.tmdb.org/t/p/w500" ++ p)
          | none => none
        match api.details movie_id with
        | .exn m =>
          (.err ("Network error: " ++ m),
           [.detailSearch movie_name, .detailFetch movie_id])
        | .resp st2 movie_details =>
          if st2 ≠ 200 then
            (.err "Failed to fetch additional movie details.",
             [.detailSearch movie_name, .detailFetch movie_id])
          else
            match api.credits movie_id with
            | .exn m =>
              (.err ("Network error: " ++ m),
               [.detailSearch movie_name, .detailFetch movie_id, .creditsFetch movie_id])
            | .resp st3 creditsBody =>
              let cast : List String :=
                if st3 ≠ 200 then []
                else (creditsBody.cast.take 3).map (fun c => c.name)
              let crew : List String :=
                if st3 ≠ 200 then []
                else (creditsBody.crew.filter (fun c => c.job = some "Director")).map
                  (fun c => c.name)
              (.ok movie_details.title movie_details.overview movie_details.vote_average
                 movie_details.release_date (joinComma cast) (joinComma crew) poster_url,
               [.detailSearch movie_name, .detailFetch movie_id, .creditsFetch movie_id])

/-- `get_ott_links` from `train_model.py`: search the catalog for the title;
on failure return an error dict and stop. Otherwise fetch the watch
providers for the id of the top match; on failure return an error dict; otherwise
partition the providers of country `IN` into free and paid name lists. -/
def get_ott_links (api : TmdbEnv) (movie_name : String) :
    OttResult × List RemoteCall :=
  match api.search movie_name with
  | .exn m => (.err ("Network error: " ++ m), [.ottSearch movie_name])
  | .resp st body =>
    if st ≠ 200 then (.err "Failed to fetch movie info from TMDB.", [.ottSearch movie_name])
    else
      match body with
      | [] => (.err "No streaming info available.", [.ottSearch movie_name])
      | md :: _ =>
        match api.providers md.id with
        | .exn m =>
          (.err ("Network error: " ++ m), [.ottSearch movie_name, .providersFetch md.id])
        | .resp st2 pb =>
          if st2 ≠ 200 then
            (.err "Failed to fetch streaming info from TMDB.",
             [.ottSearch movie_name, .providersFetch md.id])
          else
            let in_country := pb.country_IN.getD { flatrate := [], free := [] }
            (.ok (in_country.free.map (fun p => p.provider_name))
                 (in_country.flatrate.map (fun p => p.provider_name)),
             [.ottSearch movie_name, .providersFetch md.id])

/-- A JSON value appearing in an aggregated `movie_info` field: a string, a
number, or `null` (Python `None`). -/
inductive JVal where
  | s (v : String)
  | n (v : ℚ)
  | null
deriving DecidableEq

/-- Lift an optional string into a JSON field value (`None` becomes `null`). -/
def jStr : Option String → JVal
  | some v => .s v
  | none => .null

/-- Lift an optional number into a JSON field value (`None` becomes `null`). -/
def jNum : Option ℚ → JVal
  | some v => .n v
  | none => .null

/-- The `ott_availability` field of an aggregated entry: the providers dict,
or the sentinel string `"Not Available"` when the OTT branch failed. -/
inductive OttField where
  | avail (free : List (Option String)) (paid : List (Option String))
  | notAvailable
deriving DecidableEq

/-- One aggregated `movie_info` dict built by `get_full_recommendations`. -/
structure MovieInfo where
  title : JVal
  overview : JVal
  rating : JVal
  release_date : JVal
  cast : JVal
  crew : JVal
  poster_url : Option String
  ott_availability : OttField
deriving DecidableEq

/-- Build one `movie_info` entry from a `(details, ott)` pair, as in
`get_full_recommendations` lines 178-187: `details.get(field, "N/A")`
yields the detail value when the details dict is present (possibly `None`,
since the key exists) and the string `"N/A"` when the details call errored;
`details.get("poster_url")` has no default; `ott_availability` is the ott
dict unless it carries an error, in which case the sentinel
`"Not Available"`. -/
def buildMovieInfo (details : DetailsResult) (ott : OttResult) : MovieInfo :=
  { title := match details with
      | .ok t _ _ _ _ _ _ => jStr t
      | .err _ => .s "N/A"
    overview := match details with
      | .ok _ o _ _ _ _ _ => jStr o
      | .err _ => .s "N/A"
    rating := match details with
      | .ok _ _ r _ _ _ _ => jNum r
      | .err _ => .s "N/A"
    release_date := match details with
      | .ok _ _ _ rd _ _ _ => jStr rd
      | .err _ => .s "N/A"
    cast := match details with
      | .ok _ _ _ _ c _ _ => .s c
      | .err _ => .s "N/A"
    crew := match details with
      | .ok _ _ _ _ _ cr _ => .s cr
      | .err _ => .s "N/A"
    poster_url := match details with
      | .ok _ _ _ _ _ _ pu => pu
      | .err _ => none
    ott_availability := match ott with
      | .ok free paid => .avail free paid
      | .err _ => .notAvailable }

/-- The environment of the whole pipeline: the Similarity Index state, the remote
catalog API, and the configured API key string. -/
structure Env where
  ml : MlEnv
  api : TmdbEnv
  apiKey : String

/-- The candidate-resolution step of `get_full_recommendations` (lines
163-166): try `recommend_ml`; if its result carries an error, invoke
`recommend_tmdb` with the same `(movie_name, k)`. The second component
records the fallback invocations with their arguments. -/
def resolveCandidates (env : Env) (movie_name : String) (k : Nat) :
    RecResult × List (String × Nat) :=
  match recommend_ml env.ml movie_name k with
  | .err _ => ((recommend_tmdb env.api env.apiKey movie_name k).1, [(movie_name, k)])
  | .ok ms src => (.ok ms src, [])

/-- `rec_result.get("recommended_movies", [])` (line 168): the resolved
candidate titles, empty when both tiers failed. -/
def resolvedTitles (env : Env) (movie_name : String) (k : Nat) : List String :=
  match (resolveCandidates env movie_name k).1 with
  | .ok ms _ => ms
  | .err _ => []

/-- Enrich one candidate title: gather its details and OTT branches and
build the aggregated entry. -/
def enrichTitle (api : TmdbEnv) (t : String) : MovieInfo :=
  buildMovieInfo (get_movie_full_details api t).1 (get_ott_links api t).1

/-- A response of the aggregation endpoint, following the dict convention of the codebase: either a `{"recommended_movies": [...]}` payload or an
`{"error": msg}` dict. -/
inductive ApiResponse where
  | result (recommended_movies : List MovieInfo)
  | error (msg : String)
deriving DecidableEq

/-- Whether a response is an error dict. -/
def ApiResponse.isError : ApiResponse → Bool
  | .result _ => false
  | .error _ => true

/-- The `recommended_movies` list of a response (empty for an error dict). -/
def ApiResponse.recMovies : ApiResponse → List MovieInfo
  | .result ms => ms
  | .error _ => []

/-- `get_full_recommendations` from `train_model.py`: resolve the candidate
titles (Similarity Index, then fallback), gather a `(details, ott)` pair per
title, and build one `movie_info` per pair, in candidate order. The return
value is always the `{"recommended_movies": [...]}` dict — the function
never constructs an error dict. -/
def get_full_recommendations (env : Env) (movie_name : String) (k : Nat) : ApiResponse :=
  let recommended_titles := resolvedTitles env movie_name k
  let results := recommended_titles.map
    (fun t => ((get_movie_full_details env.api t).1, (get_ott_links env.api t).1))
  .result (results.map (fun r => buildMovieInfo r.1 r.2))

/-- The remote calls issued while enriching the resolved candidates of a
request (the fan-out of the aggregation loop). -/
def enrichmentCalls (env : Env) (movie_name : String) (k : Nat) : List RemoteCall :=
  (resolvedTitles env movie_name k).flatMap
    (fun t => (get_movie_full_details env.api t).2 ++ (get_ott_links env.api t).2)

/-- First value registered under index `i` in a completion-ordered list of
`(index, value)` pairs. -/
def lookupIdx {α : Type} : List (Nat × α) → Nat → Option α
  | [], _ => none
  | p :: rest, i => if p.1 = i then some p.2 else lookupIdx rest i

/-- Fan-out/fan-in with an explicit completion order: the tasks `0..n-1`
complete in the order given by `order`, producing `(index, value)` pairs as
they finish; the gather step reassembles the values by original index, as
`asyncio.gather` does. -/
def gatherByCompletion {α : Type} (order : List Nat) (task : Nat → α) (n : Nat) : List α :=
  let completed := order.map (fun i => (i, task i))
  (List.range n).filterMap (fun i => lookupIdx completed i)

/-- `get_full_recommendations` with the concurrent per-title enrichments
completing in the scheduler-chosen order `order`: the enrichment of
candidate `i` is task `i`, and `asyncio.gather` reassembles results by
position, not by completion time. -/
def get_full_recommendations_sched (env : Env) (movie_name : String) (k : Nat)
    (order : List Nat) : ApiResponse :=
  let titles := resolvedTitles env movie_name k
  .result (gatherByCompletion order (fun i => enrichTitle env.api (titles.getD i ""))
    titles.length)

/-! ### Concrete sample environments, used by witnesses and counterexamples -/

/-- A loaded Similarity Index over a 4-row catalog whose cosine distance to
any query is the row index, so neighbor order is `[0, 1, 2, 3]`. -/
def mlSample : MlEnv :=
  { loaded := true
    numRows := 4
    titleAt := fun i =>
      match i with
      | 0 => "Avatar"
      | 1 => "Aliens"
      | 2 => "Titanic"
      | _ => "Tron"
    cosineDist := fun _ i => (i : ℚ) }

/-- The Similarity Index after a failed artifact load (`knn_model, vectorizer,
movies_df = None, None, None`). -/
def mlUnloaded : MlEnv :=
  { loaded := false
    numRows := 0
    titleAt := fun _ => ""
    cosineDist := fun _ _ => 0 }

/-- A details body for the top match of the sample catalog. -/
def sampleDetails : DetailsBody :=
  { title := some "Aliens"
    overview := some "Space marines return to LV-426."
    vote_average := some (8 : ℚ)
    release_date := some "1986-07-18" }

/-- A credits body with four cast members and one director among the crew. -/
def sampleCredits : CreditsBody :=
  { cast := [{ name := "Sigourney Weaver" }, { name := "Michael Biehn" },
             { name := "Carrie Henn" }, { name := "Paul Reiser" }]
    crew := [{ name := "James Cameron", job := some "Director" },
             { name := "Gale Anne Hurd", job := some "Producer" }] }

/-- A providers body with one paid and one free provider for region `IN`. -/
def sampleProviders : ProvidersBody :=
  { country_IN := some { flatrate := [{ provider_name := some "Netflix" }],
                         free := [{ provider_name := some "YouTube" }] } }

/-- A remote catalog where every endpoint answers successfully. -/
def apiOk : TmdbEnv :=
  { search := fun _ => .resp 200 [{ id := 101, title := "Aliens", poster_path := some "/al.jpg" }]
    similar := fun _ => .resp 200 [{ id := 102, title := "Predator", poster_path := none },
                                   { id := 103, title := "The Thing", poster_path := none }]
    details := fun _ => .resp 200 sampleDetails
    credits := fun _ => .resp 200 sampleCredits
    providers := fun _ => .resp 200 sampleProviders }

/-- The catalog of `apiOk`, but every search yields zero results. -/
def apiSearchEmpty : TmdbEnv :=
  { apiOk with search := fun _ => .resp 200 [] }

/-- The catalog of `apiOk`, but the watch-providers endpoint answers 500. -/
def apiProvidersDown : TmdbEnv :=
  { apiOk with providers := fun _ => .resp 500 { country_IN := none } }

/-- The catalog of `apiOk`, but the similar-titles endpoint returns zero
results. -/
def apiNoSimilar : TmdbEnv :=
  { apiOk with similar := fun _ => .resp 200 [] }

/-- A full environment where the Similarity Index is loaded and the remote
catalog is healthy. -/
def envMlOk : Env :=
  { ml := mlSample, api := apiOk, apiKey := TMDB_API_KEY none }

/-- A full environment where the Similarity Index failed to load and every
remote search yields zero results: both tiers exhausted. -/
def envBothFail : Env :=
  { ml := mlUnloaded, api := apiSearchEmpty, apiKey := TMDB_API_KEY none }

/-- A full environment where the Similarity Index failed to load but the
remote catalog is healthy. -/
def envFallback : Env :=
  { ml := mlUnloaded, api := apiOk, apiKey := TMDB_API_KEY none }

/-- A full environment where only the watch-providers endpoint is failing. -/
def envProvidersDown : Env :=
  { ml := mlSample, api := apiProvidersDown, apiKey := TMDB_API_KEY none }

/-! ### Helper lemmas -/

theorem length_neighborOrder (ml : MlEnv) (q : String) :
    (neighborOrder ml q).length = ml.numRows := by
  simp [neighborOrder, List.length_insertionSort]

theorem kneighbors_length {ml : MlEnv} {q : String} {n : Nat} {ns : List Nat}
    (h : kneighbors ml q n = some ns) : ns.length = n := by
  unfold kneighbors at h
  split at h
  · cases h
    simpa [length_neighborOrder] using ‹n ≤ ml.numRows›
  · cases h

theorem recommend_ml_ok {ml : MlEnv} {q : String} {k : Nat} {ms : List String} {s : String}
    (h : recommend_ml ml q k = .ok ms s) : ms.length = k ∧ s = "ML model" := by
  simp only [recommend_ml] at h
  split at h
  · cases h
  · split at h
    · cases h
    · rename_i ns hns
      split at h
      · cases h
      · cases h
        have hlen := kneighbors_length hns
        refine ⟨?_, rfl⟩
        simp [hlen]

theorem recommend_tmdb_ok {api : TmdbEnv} {key : String} {q : String} {k : Nat}
    {ms : List String} {s : String}
    (h : (recommend_tmdb api key q k).1 = .ok ms s) : ms.length ≤ k := by
  simp only [recommend_tmdb] at h
  split at h
  · cases h
  · split at h
    · cases h
    · split at h
      · cases h
      · split at h
        · cases h
        · split at h
          · cases h
          · split at h
            · cases h
            · split at h
              · cases h
              · cases h
                exact List.length_take_le k _

theorem resolvedTitles_length_le (env : Env) (q : String) (k : Nat) :
    (resolvedTitles env q k).length ≤ k := by
  rcases hml : recommend_ml env.ml q k with ⟨ms, src⟩ | ⟨m⟩
  · have hres : resolvedTitles env q k = ms := by
      simp [resolvedTitles, resolveCandidates, hml]
    rw [hres]
    exact (recommend_ml_ok hml).1.le
  · rcases htm : (recommend_tmdb env.api env.apiKey q k).1 with ⟨ms2, s2⟩ | ⟨m2⟩
    · have hres : resolvedTitles env q k = ms2 := by
        simp [resolvedTitles, resolveCandidates, hml, htm]
      rw [hres]
      exact recommend_tmdb_ok htm
    · have hres : resolvedTitles env q k = [] := by
        simp [resolvedTitles, resolveCandidates, hml, htm]
      simp [hres]

theorem get_full_recommendations_recMovies (env : Env) (q : String) (k : Nat) :
    (get_full_recommendations env q k).recMovies
      = (resolvedTitles env q k).map (enrichTitle env.api) := by
  simp [get_full_recommendations, ApiResponse.recMovies, enrichTitle]

theorem lookupIdx_map_self {α : Type} (f : Nat → α) :
    ∀ (order : List Nat) (i : Nat), i ∈ order →
      lookupIdx (order.map (fun j => (j, f j))) i = some (f i) := by
  intro order
  induction order with
  | nil => intro i hi; cases hi
  | cons j rest ih =>
    intro i hi
    by_cases hij : j = i
    · subst hij
      simp [lookupIdx]
    · have : i ∈ rest := by
        rcases List.mem_cons.mp hi with h | h
        · exact absurd h.symm hij
        · exact h
      simp [lookupIdx, hij, ih i this]

theorem filterMap_eq_map_of_some {α β : Type} (g : α → Option β) (f : α → β) :
    ∀ (l : List α), (∀ a ∈ l, g a = some (f a)) → l.filterMap g = l.map f := by
  intro l
  induction l with
  | nil => intro _; rfl
  | cons a rest ih =>
    intro h
    rw [List.filterMap_cons, h a (List.mem_cons_self a rest), List.map_cons,
      ih (fun b hb => h b (List.mem_cons_of_mem a hb))]

theorem gatherByCompletion_eq_map {α : Type} (order : List Nat) (task : Nat → α) (n : Nat)
    (hc : ∀ i < n, i ∈ order) :
    gatherByCompletion order task n = (List.range n).map task := by
  unfold gatherByCompletion
  refine filterMap_eq_map_of_some _ _ _ ?_
  intro i hi
  exact lookupIdx_map_self task order i (hc i (List.mem_range.mp hi))

theorem range_map_getD {α β : Type} (l : List α) (f : α → β) (d : α) :
    (List.range l.length).map (fun i => f (l.getD i d)) = l.map f := by
  refine List.ext_getElem (by simp) ?_
  intro i h1 h2
  have hi : i < l.length := by simpa using h2
  simp only [List.getElem_map, List.getElem_range]
  exact congrArg f (List.getD_eq_getElem l d hi)

/-- A full environment where the Similarity Index failed to load and the
remote search finds a top match whose similar-titles list is empty. -/
def envNoSimilar : Env :=
  { ml := mlUnloaded, api := apiNoSimilar, apiKey := TMDB_API_KEY none }

/-! ### Claims -/

/-- C1, counterexample: with the Similarity Index unavailable and the remote
search for `"Zzzznotamovie123"` returning zero results (both tiers
exhausted), `get_full_recommendations` does NOT surface the `NotFound` error
to the caller: it returns the plain `{"recommended_movies": []}` payload,
which is not an error dict. (No enrichment call is attempted, as the claim
says.) -/
theorem C1_counterexample :
    get_full_recommendations envBothFail "Zzzznotamovie123" 5 = ApiResponse.result [] ∧
    (get_full_recommendations envBothFail "Zzzznotamovie123" 5).isError = false ∧
    enrichmentCalls envBothFail "Zzzznotamovie123" 5 = [] := by
  decide

/-- C1, amended: if the Similarity Index tier fails and the fallback remote
search for the query yields zero results (both tiers exhausted), then
`get_full_recommendations` returns a successful response with an empty
recommendation list — the resolution error is swallowed, not surfaced to the
caller as a request-level error — and no enrichment call is attempted for
any title. -/
theorem C1_amended_error_swallowed (env : Env) (q : String) (k : Nat)
    (hml : ∃ m, recommend_ml env.ml q k = .err m)
    (hsearch : env.api.search (q.toLower.trim) = .resp 200 []) :
    get_full_recommendations env q k = ApiResponse.result [] ∧
    (get_full_recommendations env q k).isError = false ∧
    enrichmentCalls env q k = [] := by
  obtain ⟨m, hm⟩ := hml
  have herr : ∃ m2, (recommend_tmdb env.api env.apiKey q k).1 = .err m2 := by
    by_cases hkey : env.apiKey = ""
    · exact ⟨"TMDB API key is missing.", by simp [recommend_tmdb, hkey]⟩
    · exact ⟨"Movie not found in TMDB.", by simp [recommend_tmdb, hkey, hsearch]⟩
  obtain ⟨m2, hm2⟩ := herr
  have hres : resolvedTitles env q k = [] := by
    simp [resolvedTitles, resolveCandidates, hm, hm2]
  refine ⟨?_, ?_, ?_⟩
  · simp [get_full_recommendations, hres]
  · simp [get_full_recommendations, hres, ApiResponse.isError]
  · simp [enrichmentCalls, hres]

/-- C1, witness for the amended theorem at a concrete environment. -/
theorem C1_amended_witness :
    get_full_recommendations envBothFail "Zzzz" 5 = ApiResponse.result [] ∧
    (get_full_recommendations envBothFail "Zzzz" 5).isError = false ∧
    enrichmentCalls envBothFail "Zzzz" 5 = [] :=
  C1_amended_error_swallowed envBothFail "Zzzz" 5
    ⟨"Pre-trained ML model or movies mapping is not available.", by decide⟩ (by decide)

/-- C2: for every query and every `k ≥ 1`, `get_full_recommendations` returns
a sequence of length at most `k`, and its length is strictly less than `k`
only when the resolving tier produced fewer than `k` candidate titles. -/
theorem C2_result_length_bounded (env : Env) (q : String) (k : Nat) (_hk : 1 ≤ k) :
    (get_full_recommendations env q k).recMovies.length ≤ k ∧
    ((get_full_recommendations env q k).recMovies.length < k →
      (resolvedTitles env q k).length < k) := by
  have hlen : (get_full_recommendations env q k).recMovies.length
      = (resolvedTitles env q k).length := by
    rw [get_full_recommendations_recMovies, List.length_map]
  constructor
  · rw [hlen]
    exact resolvedTitles_length_le env q k
  · intro h
    rwa [hlen] at h

/-- C2, witness at a concrete environment and `k = 2`. -/
theorem C2_witness :
    (get_full_recommendations envMlOk "Avatar" 2).recMovies.length ≤ 2 ∧
    ((get_full_recommendations envMlOk "Avatar" 2).recMovies.length < 2 →
      (resolvedTitles envMlOk "Avatar" 2).length < 2) :=
  C2_result_length_bounded envMlOk "Avatar" 2 (by decide)

/-- C3: for every query and `k`, if the Similarity Index lookup fails for any
reason the Fallback Resolver is invoked exactly once with the same
`(query, k)`, and if the Similarity Index lookup succeeds the Fallback
Resolver is not invoked at all. -/
theorem C3_fallback_activation (env : Env) (q : String) (k : Nat) :
    ((∃ m, recommend_ml env.ml q k = .err m) →
      (resolveCandidates env q k).2 = [(q, k)]) ∧
    ((∃ ms s, recommend_ml env.ml q k = .ok ms s) →
      (resolveCandidates env q k).2 = []) := by
  constructor
  · rintro ⟨m, hm⟩
    simp [resolveCandidates, hm]
  · rintro ⟨ms, s, hm⟩
    simp [resolveCandidates, hm]

/-- C3, witness: one concrete environment where the index fails (fallback
invoked once with the same arguments) and one where it succeeds (fallback
not invoked). -/
theorem C3_witness :
    (resolveCandidates envFallback "Avatar" 2).2 = [("Avatar", 2)] ∧
    (resolveCandidates envMlOk "Avatar" 2).2 = [] :=
  ⟨(C3_fallback_activation envFallback "Avatar" 2).1
      ⟨"Pre-trained ML model or movies mapping is not available.", by decide⟩,
   (C3_fallback_activation envMlOk "Avatar" 2).2
      ⟨["Aliens", "Titanic"], "ML model", by decide⟩⟩

/-- C4: for every enriched candidate, if the streaming-provider branch fails
but the details branch succeeds, the aggregated entry at that candidate
position has every `MovieDetail` field populated from the details response
and `ott_availability` equal to the sentinel `"Not Available"`; the entry is
present in the output (never dropped or aborted). -/
theorem C4_partial_failure_isolation (env : Env) (q : String) (k : Nat) (i : Nat) (t : String)
    (tt ov : Option String) (rt : Option ℚ) (rd : Option String) (ca cr : String)
    (pu : Option String) (m : String)
    (ht : (resolvedTitles env q k)[i]? = some t)
    (hd : (get_movie_full_details env.api t).1 = .ok tt ov rt rd ca cr pu)
    (ho : (get_ott_links env.api t).1 = .err m) :
    ((get_full_recommendations env q k).recMovies)[i]? = some
      { title := jStr tt, overview := jStr ov, rating := jNum rt, release_date := jStr rd,
        cast := .s ca, crew := .s cr, poster_url := pu,
        ott_availability := .notAvailable } := by
  rw [get_full_recommendations_recMovies, List.getElem?_map, ht]
  simp [enrichTitle, hd, ho, buildMovieInfo]

/-- C4, witness: a concrete environment whose watch-providers endpoint
answers 500 while all detail endpoints succeed. -/
theorem C4_witness :
    ((get_full_recommendations envProvidersDown "Avatar" 1).recMovies)[0]? = some
      { title := jStr (some "Aliens"),
        overview := jStr (some "Space marines return to LV-426."),
        rating := jNum (some (8 : ℚ)), release_date := jStr (some "1986-07-18"),
        cast := .s "Sigourney Weaver, Michael Biehn, Carrie Henn",
        crew := .s "James Cameron",
        poster_url := some "https://image.tmdb.org/t/p/w500/al.jpg",
        ott_availability := .notAvailable } :=
  C4_partial_failure_isolation envProvidersDown "Avatar" 1 0 "Aliens"
    (some "Aliens") (some "Space marines return to LV-426.") (some (8 : ℚ))
    (some "1986-07-18") "Sigourney Weaver, Michael Biehn, Carrie Henn" "James Cameron"
    (some "https://image.tmdb.org/t/p/w500/al.jpg")
    "Failed to fetch streaming info from TMDB." (by decide) (by decide) (by decide)

/-- C5: for every resolved candidate list, the final output preserves
candidate rank order: whatever order the concurrent per-title enrichments
complete in (any completion order covering all task indices), the gathered
result equals the in-order aggregation, and the `i`-th output entry is the
enrichment of the `i`-th candidate title. -/
theorem C5_order_stable (env : Env) (q : String) (k : Nat) (order : List Nat)
    (hc : ∀ i < (resolvedTitles env q k).length, i ∈ order) :
    get_full_recommendations_sched env q k order = get_full_recommendations env q k ∧
    (∀ (i : Nat) (t : String), (resolvedTitles env q k)[i]? = some t →
      ((get_full_recommendations_sched env q k order).recMovies)[i]? =
        some (enrichTitle env.api t)) := by
  have h1 : get_full_recommendations_sched env q k order
      = .result ((resolvedTitles env q k).map (enrichTitle env.api)) := by
    simp only [get_full_recommendations_sched]
    rw [gatherByCompletion_eq_map _ _ _ hc,
      range_map_getD (resolvedTitles env q k) (enrichTitle env.api) ""]
  have h2 : get_full_recommendations env q k
      = .result ((resolvedTitles env q k).map (enrichTitle env.api)) := by
    simp [get_full_recommendations, enrichTitle]
  constructor
  · rw [h1, h2]
  · intro i t ht
    rw [h1]
    simp [ApiResponse.recMovies, List.getElem?_map, ht]

/-- C5, witness: with two resolved candidates, the completion order `[1, 0]`
(second enrichment finishing first) yields the same response as the
sequential aggregation. -/
theorem C5_witness :
    get_full_recommendations_sched envMlOk "Avatar" 2 [1, 0]
      = get_full_recommendations envMlOk "Avatar" 2 :=
  (C5_order_stable envMlOk "Avatar" 2 [1, 0] (by decide)).1

/-- Whether the step-1 search call of an enricher branch failed: a raised
exception, a non-200 status, or an empty `results` array. -/
def searchFailed : Remote (List SearchEntry) → Bool
  | .exn _ => true
  | .resp st body => (st != 200) || body.isEmpty

/-- C6: for every title, if the step-1 search call (title to catalog
identifier) fails, each Detail Enricher branch returns an explicit error
marker for that title and attempts no further remote call: the details
branch issues only its search call (no details or credits fetch), and the
OTT branch issues only its search call (no providers fetch). -/
theorem C6_search_failure_aborts (api : TmdbEnv) (t : String)
    (h : searchFailed (api.search t) = true) :
    (∃ m, get_movie_full_details api t = (.err m, [.detailSearch t])) ∧
    (∃ m, get_ott_links api t = (.err m, [.ottSearch t])) := by
  rcases hs : api.search t with ⟨m⟩ | ⟨st, body⟩
  · exact ⟨⟨"Network error: " ++ m, by simp [get_movie_full_details, hs]⟩,
      ⟨"Network error: " ++ m, by simp [get_ott_links, hs]⟩⟩
  · rw [hs] at h
    simp only [searchFailed, Bool.or_eq_true, bne_iff_ne, List.isEmpty_iff] at h
    rcases h with h | h
    · exact ⟨⟨"Failed to fetch movie info from TMDB.", by simp [get_movie_full_details, hs, h]⟩,
        ⟨"Failed to fetch movie info from TMDB.", by simp [get_ott_links, hs, h]⟩⟩
    · subst h
      by_cases hst : st = 200
      · subst hst
        exact ⟨⟨"Movie not found.", by simp [get_movie_full_details, hs]⟩,
          ⟨"No streaming info available.", by simp [get_ott_links, hs]⟩⟩
      · exact ⟨⟨"Failed to fetch movie info from TMDB.",
            by simp [get_movie_full_details, hs, hst]⟩,
          ⟨"Failed to fetch movie info from TMDB.", by simp [get_ott_links, hs, hst]⟩⟩

/-- C6, witness: a concrete environment whose search yields zero results. -/
theorem C6_witness :
    (∃ m, get_movie_full_details apiSearchEmpty "Zzzz" = (.err m, [.detailSearch "Zzzz"])) ∧
    (∃ m, get_ott_links apiSearchEmpty "Zzzz" = (.err m, [.ottSearch "Zzzz"])) :=
  C6_search_failure_aborts apiSearchEmpty "Zzzz" (by decide)

/-- C7: for every query and `k ≥ 1` for which the Similarity Index succeeds,
the lookup retrieved the `k+1` nearest neighbors by cosine distance of the
processed query, excluded the first (nearest) neighbor as the query itself,
and returned exactly the `k` remaining candidate titles in neighbor order. -/
theorem C7_similarity_lookup (ml : MlEnv) (q : String) (k : Nat) (_hk : 1 ≤ k)
    (ms : List String) (s : String) (h : recommend_ml ml q k = .ok ms s) :
    ∃ ns, kneighbors ml (q.toLower.trim) (k + 1) = some ns ∧
      ns.length = k + 1 ∧ ms = (ns.drop 1).map ml.titleAt ∧ ms.length = k := by
  simp only [recommend_ml] at h
  split at h
  · cases h
  · split at h
    · cases h
    · rename_i ns hns
      split at h
      · cases h
      · cases h
        exact ⟨ns, hns, kneighbors_length hns, rfl, by simp [kneighbors_length hns]⟩

/-- C7, witness: the sample index at `k = 2` returns the two titles after the
nearest neighbor, in neighbor order. -/
theorem C7_witness :
    ∃ ns, kneighbors mlSample ("Avatar".toLower.trim) 3 = some ns ∧
      ns.length = 3 ∧ ["Aliens", "Titanic"] = (ns.drop 1).map mlSample.titleAt ∧
      (["Aliens", "Titanic"] : List String).length = 2 :=
  C7_similarity_lookup mlSample "Avatar" 2 (by decide) ["Aliens", "Titanic"] "ML model"
    (by decide)

/-- C8, counterexample: with the `TMDB_API_KEY` environment variable absent
(`none`), the configured key is the hardcoded default, so `recommend_tmdb`
does NOT return a missing-key error: it issues both remote calls and
succeeds. Absence of the credential therefore does not surface a
`ConfigError` before any remote call. -/
theorem C8_counterexample :
    (recommend_tmdb apiOk (TMDB_API_KEY none) "Zzzz" 5).1
      = .ok ["Predator", "The Thing"] "TMDB fallback" ∧
    ((recommend_tmdb apiOk (TMDB_API_KEY none) "Zzzz" 5).2).length = 2 ∧
    (recommend_tmdb apiOk (TMDB_API_KEY none) "Zzzz" 5).1
      ≠ RecResult.err "TMDB API key is missing." := by
  decide

/-- C8, amended: only when the configured key string is empty does
`recommend_tmdb` return the missing-key error, immediately and before
issuing any remote call (empty call list, hence no retry); absence of the
`TMDB_API_KEY` environment variable is masked by the hardcoded default key,
so it never yields a missing-key error. The enrichment operations
(`get_movie_full_details`, `get_ott_links`) never check the key at all. -/
theorem C8_amended_empty_key_only :
    (∀ (api : TmdbEnv) (q : String) (k : Nat),
      recommend_tmdb api "" q k = (.err "TMDB API key is missing.", [])) ∧
    TMDB_API_KEY none = "3075ab4eebb27e51a67f7869d6b7984a" := by
  constructor
  · intro api q k
    simp [recommend_tmdb]
  · rfl

/-- C9: for every title whose search, details, and credits responses are
available, the enriched detail dict has `cast` equal to the comma-joined
names of the first 3 credited cast members (fewer if the cast list is
shorter) and `crew` equal to the comma-joined names of the crew members
whose `job` tag equals `"Director"`; the other fields come from the details
response. -/
theorem C9_cast_crew (api : TmdbEnv) (t : String) (e : SearchEntry)
    (rest : List SearchEntry) (db : DetailsBody) (cb : CreditsBody)
    (hs : api.search t = .resp 200 (e :: rest))
    (hd : api.details e.id = .resp 200 db)
    (hc : api.credits e.id = .resp 200 cb) :
    (get_movie_full_details api t).1 =
      .ok db.title db.overview db.vote_average db.release_date
        (joinComma ((cb.cast.take 3).map (fun c => c.name)))
        (joinComma ((cb.crew.filter (fun c => c.job = some "Director")).map (fun c => c.name)))
        (match e.poster_path with
         | some p => if p = "" then none else some ("https://image.tmdb.org/t/p/w500" ++ p)
         | none => none) := by
  simp [get_movie_full_details, hs, hd, hc]

/-- C9, witness: the sample credits list has 4 cast members and one
director; the enriched cast is the first 3 names and the crew the single
director name. -/
theorem C9_witness :
    (get_movie_full_details apiOk "Aliens").1 =
      .ok sampleDetails.title sampleDetails.overview
        sampleDetails.vote_average sampleDetails.release_date
        (joinComma ((sampleCredits.cast.take 3).map (fun c => c.name)))
        (joinComma ((sampleCredits.crew.filter
          (fun c => c.job = some "Director")).map (fun c => c.name)))
        (match (some "/al.jpg" : Option String) with
         | some p => if p = "" then none else some ("https://image.tmdb.org/t/p/w500" ++ p)
         | none => none) :=
  C9_cast_crew apiOk "Aliens" { id := 101, title := "Aliens", poster_path := some "/al.jpg" }
    [] sampleDetails sampleCredits rfl rfl rfl

/-- C10: if the fallback search succeeds with a top match but the
similar-titles response contains zero results, `recommend_tmdb` returns an
error value — not an empty candidate sequence — and when the Similarity
Index has also failed, the aggregator resolves an empty candidate list,
exactly as for any other resolution failure. -/
theorem C10_empty_similar_is_error (env : Env) (q : String) (k : Nat)
    (e : SearchEntry) (rest : List SearchEntry)
    (hkey : env.apiKey ≠ "")
    (hs : env.api.search (q.toLower.trim) = .resp 200 (e :: rest))
    (hsim : env.api.similar e.id = .resp 200 []) :
    (recommend_tmdb env.api env.apiKey q k).1 = .err "No similar movies found on TMDB." ∧
    ((∃ m, recommend_ml env.ml q k = .err m) → resolvedTitles env q k = []) := by
  have h1 : (recommend_tmdb env.api env.apiKey q k).1
      = .err "No similar movies found on TMDB." := by
    simp [recommend_tmdb, hkey, hs, hsim]
  refine ⟨h1, ?_⟩
  rintro ⟨m, hm⟩
  simp [resolvedTitles, resolveCandidates, hm, h1]

/-- C10, witness: a concrete environment whose similar-titles endpoint
returns zero results while the search finds a top match. -/
theorem C10_witness :
    (recommend_tmdb envNoSimilar.api envNoSimilar.apiKey "Avatar" 5).1
      = .err "No similar movies found on TMDB." ∧
    ((∃ m, recommend_ml envNoSimilar.ml "Avatar" 5 = .err m) →
      resolvedTitles envNoSimilar "Avatar" 5 = []) :=
  C10_empty_similar_is_error envNoSimilar "Avatar" 5
    { id := 101, title := "Aliens", poster_path := some "/al.jpg" } []
    (by decide) (by decide) (by decide)
